import Mathlib

/-!
Verification development for the pytauri repository's asynchronous
command-dispatch bridge.

The definitions below are shallow embeddings of the Python source:

* `src/python/pyfuture/src/pyfuture/__init__.py` — the `_PyRunner.__call__`
  wrapper coroutines and the `_RunnerStack` lifecycle stack;
* `src/python/pytauri/src/pytauri/ipc.py` — `Commands._async_invoke_handler`
  (dispatch), `Commands.wrap_pyfunc`, `Commands.parse_parameters`,
  `Commands.set_command`, `Commands._register`;
* `src/example/python/pytauri_demo/__init__.py` — the demo `greet` handler.

Python exceptions are modelled as explicit data; coroutine completion is
modelled as an outcome value; effectful calls (`set_result`, `resolve`,
`reject`, logging) are modelled as traces of effect values.
-/

namespace PyTauri

/-! ## Runner wrapper coroutines (`_PyRunner.__call__` in pyfuture)

`py_future.awaitable` is awaited exactly once per spawned wrapper; its
completion is either a value or a raised exception.  The backend's
cancellation-signal class check `isinstance(e, cancelled_exc_class)` is
modelled by the `isCancelled` flag of the exception. -/

/-- A backend exception value; `isCancelled` records whether it is an
instance of `cancelled_exc_class`. -/
structure BackendExc where
  eid : Nat
  isCancelled : Bool
  deriving DecidableEq, Repr

/-- Completion of `await py_future.awaitable`: a normal value or a raised
exception. -/
inductive AwaitOutcome where
  | ok (v : Nat)
  | err (e : BackendExc)
  deriving DecidableEq, Repr

/-- One call made on the pending operation (`py_future`). -/
inductive SetCall where
  | setResult (v : Nat)
  | setException (e : BackendExc)
  deriving DecidableEq, Repr

/-- How the wrapper coroutine terminates: returning normally, propagating an
exception out of itself, or having its re-raised cancellation absorbed by the
enclosing `CancelScope` (after which the `assert is_cancelled` line runs and
passes). -/
inductive WrapExit where
  | normal
  | raised (e : BackendExc)
  | scopeAbsorbed (e : BackendExc)
  deriving DecidableEq, Repr

/-- The `try/except/else` body shared by both `_wrapped` variants
(pyfuture `__init__.py` lines 112-124 and 152-164): on success call
`set_result` and return; on an exception call `set_exception`, then re-raise
exactly when the exception is the backend cancellation signal, otherwise
return. -/
def wrappedTry (o : AwaitOutcome) : List SetCall × WrapExit :=
  match o with
  | .ok v => ([SetCall.setResult v], WrapExit.normal)
  | .err e =>
    ([SetCall.setException e],
      if e.isCancelled then WrapExit.raised e else WrapExit.normal)

/-- The `with scope:` layer of the same-thread branch: the `CancelScope`
suppresses (only) the cancellation exception, and only when the scope itself
was cancelled (`absorbs`); control then reaches `assert is_cancelled`. -/
def scopeWrap (absorbs : Bool) : WrapExit → WrapExit
  | WrapExit.raised e =>
    if absorbs && e.isCancelled then WrapExit.scopeAbsorbed e else WrapExit.raised e
  | x => x

/-- The `_wrapped` coroutine of the task-group branch
(`event_loop_thread_id == get_ident()`), lines 109-131. -/
def wrappedSameThread (o : AwaitOutcome) (absorbs : Bool) : List SetCall × WrapExit :=
  let r := wrappedTry o
  (r.1, scopeWrap absorbs r.2)

/-- The `_wrapped` coroutine of the portal branch (external thread),
lines 151-167. -/
def wrappedCrossThread (o : AwaitOutcome) : List SetCall × WrapExit :=
  wrappedTry o

/-- `_PyRunner.__call__`, restricted to the wrapper coroutine it spawns:
the thread-identity test selects the task-group branch or the portal
branch. -/
def runnerWrapped (sameThread : Bool) (o : AwaitOutcome) (absorbs : Bool) :
    List SetCall × WrapExit :=
  if sameThread then wrappedSameThread o absorbs else wrappedCrossThread o

/-- The single settlement call the completion outcome demands. -/
def settleOf (o : AwaitOutcome) : SetCall :=
  match o with
  | .ok v => SetCall.setResult v
  | .err e => SetCall.setException e

/-- The exception (if any) a wrapper exit re-raises into the surrounding
scope/task-group machinery. -/
def exitExc : WrapExit → Option BackendExc
  | WrapExit.normal => none
  | WrapExit.raised e => some e
  | WrapExit.scopeAbsorbed e => some e

/-- The cancellation exception of an await outcome, when there is one. -/
def cancelExcOf (o : AwaitOutcome) : Option BackendExc :=
  match o with
  | .ok _ => none
  | .err e => if e.isCancelled then some e else none

/-! ## Runner lifecycle stack (`_RunnerStack` in pyfuture)

`push` appends a weak reference; `__exit__` pops entries LIFO, dereferences
(a dead referent yields `none` and is skipped), calls `close()` on live
referents, collects exceptions raised by `close()`, and finally raises a
`BaseExceptionGroup` chained `from` the triggering exception when any were
collected. -/

/-- A Runner as seen by the stack: an identity and the behaviour of its
`close()` method (`some e` means `close()` raises exception `e`). -/
structure RunnerM where
  rid : Nat
  closeExc : Option Nat
  deriving DecidableEq, Repr

/-- `_RunnerStack.push`: `self._runner_stack.append(ref(runner))`. -/
def stackPush (stack : List (Option RunnerM)) (w : Option RunnerM) :
    List (Option RunnerM) :=
  stack ++ [w]

/-- The `while self._runner_stack:` loop of `_RunnerStack.__exit__`, acting
on the stack already reversed into pop order: dereference, skip dead
referents, call `close()` on live ones, collect raised exceptions.  Returns
(runner ids whose `close()` was called, in call order; collected
exceptions, in collection order). -/
def closeLoop : List (Option RunnerM) → List Nat × List Nat
  | [] => ([], [])
  | w :: rest =>
    let r := closeLoop rest
    match w with
    | none => r
    | some runner =>
      match runner.closeExc with
      | none => (runner.rid :: r.1, r.2)
      | some e => (runner.rid :: r.1, e :: r.2)

/-- `_RunnerStack.__exit__` (lines 61-81): run the close loop in LIFO order
over the pushed stack, then raise `BaseExceptionGroup(excs) from exc` iff
any exceptions were collected.  The first component is the order of
`close()` calls; the second is `none` for a clean exit or
`some (collected exceptions, chained trigger)` for the raised group. -/
def runnerStackExit (stack : List (Option RunnerM)) (trigger : Option Nat) :
    List Nat × Option (List Nat × Option Nat) :=
  let r := closeLoop stack.reverse
  (r.1, if r.2.isEmpty then none else some (r.2, trigger))

/-- Ids of live referents in pop (reverse-push) order — the specification's
description of the close order. -/
def liveIdsLIFO (stack : List (Option RunnerM)) : List Nat :=
  stack.reverse.filterMap (fun w => w.map RunnerM.rid)

/-- Exceptions the live referents' `close()` calls raise, in pop order —
the specification's description of the collected aggregate. -/
def closeExcsLIFO (stack : List (Option RunnerM)) : List Nat :=
  stack.reverse.filterMap (fun w => w.bind RunnerM.closeExc)

/-! ## Command dispatch (`Commands._async_invoke_handler` in pytauri/ipc.py)

The registry `self.data` maps command names to handler data; handler
behaviour on the bound body bytes is modelled as a function into
`HandlerOutcome` (normal return, raised `InvokeException`, or any other
raised exception).  Calls on the `Invoke`/`InvokeResolver` FFI objects and
log emissions are recorded as an effect trace.  Body byte payloads are
modelled as character lists. -/

/-- A Python exception other than `InvokeException`, as seen by the
dispatch wrapper; `repr(e)` is `clsName(args)`. -/
structure PyExc where
  clsName : String
  args : String
  deriving DecidableEq, Repr

/-- Python's `repr` of an exception: class name followed by parenthesised
arguments. -/
def reprExc (e : PyExc) : String :=
  e.clsName ++ "(" ++ e.args ++ ")"

/-- What `await handler(**resolver.arguments)` does: return response bytes,
raise `InvokeException` with a message, or raise some other exception. -/
inductive HandlerOutcome where
  | ok (resp : List Char)
  | invokeExc (msg : String)
  | otherExc (e : PyExc)
  deriving DecidableEq, Repr

/-- One inbound `Invoke`: the command name, whether `bind_to` succeeds
(`bind_to` returning `None` means the native side already rejected the
invoke), and the bound body bytes. -/
structure InvokeM where
  command : String
  bindOk : Bool
  body : List Char
  deriving DecidableEq, Repr

/-- Observable effects of one dispatch. -/
inductive Effect where
  | invokeReject (msg : String)
  | handlerCalled
  | resolverResolve (resp : List Char)
  | resolverReject (msg : String)
  | logErrorEntry
  deriving DecidableEq, Repr

/-- The f-string `f"no python handler \x60{command}\x60 found"` of ipc.py
line 118. -/
def noHandlerMsg (command : String) : String :=
  "no python handler `" ++ command ++ "` found"

/-- Python `dict.get` on the registry, modelled over an association list in
insertion order. -/
def lookupCmd {α : Type} : List (String × α) → String → Option α
  | [], _ => none
  | (k, v) :: rest, c => if k = c then some v else lookupCmd rest c

/-- Python `dict` item assignment `self.data[command] = ...`: replace the
entry in place if the key exists, else append. -/
def setCmd {α : Type} : List (String × α) → String → α → List (String × α)
  | [], c, v => [(c, v)]
  | (k, w) :: rest, c, v =>
    if k = c then (c, v) :: rest else (k, w) :: setCmd rest c v

/-- `Commands.__init__._async_invoke_handler` (ipc.py lines 109-155):
look up the command (rejecting the invoke with `noHandlerMsg` when absent),
bind (returning silently when `bind_to` already rejected), await the
handler, then settle the resolver: `resolve(resp)` on success,
`reject(e.value)` on `InvokeException`, and log-then-`reject(repr(e))` on
any other exception.  The function is total — no modelled path re-raises,
matching the wrapper's requirement never to raise for these paths. -/
def asyncInvokeHandler (data : List (String × (List Char → HandlerOutcome)))
    (inv : InvokeM) : List Effect :=
  match lookupCmd data inv.command with
  | none => [Effect.invokeReject (noHandlerMsg inv.command)]
  | some handler =>
    if inv.bindOk then
      Effect.handlerCalled ::
        (match handler inv.body with
        | .ok resp => [Effect.resolverResolve resp]
        | .invokeExc msg => [Effect.resolverReject msg]
        | .otherExc e => [Effect.logErrorEntry, Effect.resolverReject (reprExc e)])
    else []

/-! ## Serialization adapter (`Commands.wrap_pyfunc`) and the demo `greet`

`wrap_pyfunc` injects `body_type.model_validate_json` before the user
function (converting a `ValidationError` into `InvokeException(str(e))`)
and `return_annotation.__pydantic_serializer__.to_json` after it.  Pydantic
itself is an external collaborator; its JSON wire format for the two flat
single-string-field demo models (`Person {name: str}` and
`Greeting {message: str}`) is modelled concretely below, with byte payloads
as character lists and string fields restricted to characters that need no
JSON escaping. -/

/-- The demo body model `Person(BaseModel): name: str`. -/
structure Person where
  name : List Char
  deriving DecidableEq, Repr

/-- The demo return model `Greeting(BaseModel): message: str`. -/
structure Greeting where
  message : List Char
  deriving DecidableEq, Repr

/-- The pure logic of the demo `greet` handler
(`pytauri_demo/__init__.py` line 39): `Greeting(message=f"Hello, name!")`
with the name spliced in. -/
def greetLogic (p : Person) : Greeting :=
  ⟨"Hello, ".toList ++ p.name ++ "!".toList⟩

/-- A character that serializes into a JSON string unescaped. -/
def jsonCharOk (c : Char) : Bool :=
  c ≠ '"' && c ≠ '\\'

/-- A string-field value whose JSON form is itself, unescaped. -/
def jsonChars (s : List Char) : Bool :=
  s.all jsonCharOk

/-- Strip an expected leading run of characters, or fail. -/
def dropLead : List Char → List Char → Option (List Char)
  | [], s => some s
  | _ :: _, [] => none
  | a :: ps, b :: bs => if a = b then dropLead ps bs else none

/-- Strip an expected trailing run of characters, or fail. -/
def dropTail (suf s : List Char) : Option (List Char) :=
  (dropLead suf.reverse s.reverse).map List.reverse

/-- Extract the text between a fixed head and a fixed tail, or fail. -/
def extractMid (pre suf s : List Char) : Option (List Char) :=
  match dropLead pre s with
  | none => none
  | some r => dropTail suf r

/-- Leading bytes of pydantic's JSON for `Person`. -/
def personPre : List Char := "\x7b\"name\":\"".toList

/-- Trailing bytes shared by both model encodings. -/
def jsonSuf : List Char := "\"\x7d".toList

/-- Leading bytes of pydantic's JSON for `Greeting`. -/
def greetingPre : List Char := "\x7b\"message\":\"".toList

/-- Pydantic `to_json` for `Greeting` (modelled). -/
def greetingToJson (g : Greeting) : List Char :=
  greetingPre ++ g.message ++ jsonSuf

/-- Pydantic `model_validate_json` for `Greeting` (modelled): accepts
exactly the unescaped encodings. -/
def greetingFromJson (s : List Char) : Option Greeting :=
  match extractMid greetingPre jsonSuf s with
  | none => none
  | some mid => if jsonChars mid then some ⟨mid⟩ else none

/-- Pydantic `model_validate_json` for `Person` (modelled). -/
def personFromJson (s : List Char) : Option Person :=
  match extractMid personPre jsonSuf s with
  | none => none
  | some mid => if jsonChars mid then some ⟨mid⟩ else none

/-- The wrapper coroutine `wrap_pyfunc` builds around a model-typed user
function (ipc.py lines 244-264): deserialize the body bytes — a
`ValidationError` becomes `InvokeException(str(e))` — run the user
function, serialize the returned model to bytes. -/
def wrapModelHandler {α β : Type} (dec : List Char → Option α)
    (enc : β → List Char) (vmsg : String) (f : α → β)
    (body : List Char) : HandlerOutcome :=
  match dec body with
  | none => HandlerOutcome.invokeExc vmsg
  | some a => HandlerOutcome.ok (enc (f a))

/-- The message `str(ValidationError)` carries for an invalid `Person`
body; its exact text is owned by pydantic. -/
def personValidationMsg : String := "1 validation error for Person"

/-- The registry `data` after registering the wrapped demo `greet`. -/
def greetData : List (String × (List Char → HandlerOutcome)) :=
  [("greet", wrapModelHandler personFromJson greetingToJson
    personValidationMsg greetLogic)]

/-! ## Registration-time signature validation
(`Commands.wrap_pyfunc`, `Commands.parse_parameters`, `Commands.set_command`,
`Commands._register`)

Python classes occurring as annotations are modelled by `PyClass` with the
`issubclass` fragment relevant to the code: every class is a subclass of
itself and every concrete pydantic model class is a subclass of
`BaseModel`.  Handler signatures are the `inspect.signature` view: a list
of named, kinded, annotated parameters plus a return annotation. -/

/-- Annotation classes: `bytes`, `bytearray`, pydantic's `BaseModel`, a
concrete pydantic model class, `AppHandle`, `WebviewWindow`, or any other
class. -/
inductive PyClass where
  | bytesCls
  | bytearrayCls
  | baseModelCls
  | modelCls (name : String)
  | appHandleCls
  | webviewWindowCls
  | otherCls (name : String)
  deriving DecidableEq, Repr

/-- Python `issubclass` restricted to the modelled classes. -/
def isSubclassOf (c d : PyClass) : Bool :=
  c == d ||
    match c, d with
    | .modelCls _, .baseModelCls => true
    | _, _ => false

/-- `inspect.Parameter.kind`. -/
inductive ParamKind where
  | positionalOnly
  | positionalOrKeyword
  | varPositional
  | keywordOnly
  | varKeyword
  deriving DecidableEq, Repr

/-- One declared parameter of a handler. -/
structure Param where
  name : String
  kind : ParamKind
  anno : PyClass
  deriving DecidableEq, Repr

/-- A handler signature: its parameters in declaration order and its
return annotation. -/
structure Sig where
  params : List Param
  ret : PyClass
  deriving DecidableEq, Repr

/-- `parameters.get("body")` (ipc.py line 215). -/
def findBody (ps : List Param) : Option Param :=
  ps.find? (fun p => p.name == "body")

/-- The `body`-parameter validation of `Commands.wrap_pyfunc`
(ipc.py lines 215-230): if a `body` parameter exists, its kind must be
`KEYWORD_ONLY` or `POSITIONAL_OR_KEYWORD`, and its annotation a `BaseModel`
subclass (a serializer is injected, result `some true`) or otherwise a
`bytearray` subclass (no serializer, `some false`); anything else raises
`ValueError` (`none`). -/
def bodyStep : Option Param → Option Bool
  | none => some false
  | some bp =>
    if bp.kind ≠ ParamKind.keywordOnly ∧
        bp.kind ≠ ParamKind.positionalOrKeyword then none
    else if isSubclassOf bp.anno PyClass.baseModelCls then some true
    else if isSubclassOf bp.anno PyClass.bytearrayCls then some false
    else none

/-- The return-annotation validation of `Commands.wrap_pyfunc`
(ipc.py lines 232-239): a `BaseModel` subclass gets a deserializer
(`some true`), a `bytes`/`bytearray` subclass gets none (`some false`),
anything else raises `ValueError` (`none`). -/
def retStep (ret : PyClass) : Option Bool :=
  if isSubclassOf ret PyClass.baseModelCls then some true
  else if isSubclassOf ret PyClass.bytesCls ||
      isSubclassOf ret PyClass.bytearrayCls then some false
  else none

/-- The signature update `new_parameters[body_key] =
parameters[body_key].replace(annotation=bytearray)` (ipc.py lines
266-271). -/
def replaceBodyAnno (ps : List Param) : List Param :=
  ps.map fun p =>
    if p.name = "body" then { p with anno := PyClass.bytearrayCls } else p

/-- The signature transformation performed by `Commands.wrap_pyfunc`
(ipc.py lines 190-282): validate the `body` parameter and the return
annotation, then — when a serializer or deserializer is injected — build
the wrapper's signature with the `body` annotation replaced by `bytearray`
(serializer case) and the return annotation replaced by `bytes`; with
neither, return the original function and signature unchanged.  `none`
models a raised `ValueError`; otherwise the `Bool` records whether a new
wrapper function was created. -/
def wrapPyfuncSig (s : Sig) : Option (Bool × Sig) :=
  match bodyStep (findBody s.params) with
  | none => none
  | some hasSer =>
    match retStep s.ret with
    | none => none
    | some hasDeser =>
      if hasSer = false ∧ hasDeser = false then some (false, s)
      else
        some (true,
          { params := if hasSer then replaceBodyAnno s.params else s.params,
            ret := PyClass.bytesCls })

/-- The `arguments_type` table of `Commands.parse_parameters`
(ipc.py lines 312-316). -/
def expectedAnno (n : String) : Option PyClass :=
  if n = "body" then some PyClass.bytearrayCls
  else if n = "app_handle" then some PyClass.appHandleCls
  else if n = "webview_window" then some PyClass.webviewWindowCls
  else none

/-- One iteration of the parameter loop in `Commands.parse_parameters`:
the name must be a key of `arguments_type` and the annotation a subclass
of the expected class. -/
def paramOk (p : Param) : Bool :=
  match expectedAnno p.name with
  | none => false
  | some c => isSubclassOf p.anno c

/-- `Commands.parse_parameters` with `check_signature=True`
(ipc.py lines 284-339), as an acceptance predicate: every parameter passes
the loop and the return annotation is a subclass of `bytes` or
`bytearray`. -/
def parseParamsOk (s : Sig) : Bool :=
  s.params.all paramOk &&
    (isSubclassOf s.ret PyClass.bytesCls ||
      isSubclassOf s.ret PyClass.bytearrayCls)

/-- `Commands.set_command`'s validation pipeline
`parse_parameters(wrap_pyfunc(handler))`: accepted iff `wrap_pyfunc` does
not raise and the wrapped signature passes `parse_parameters`. -/
def setCommandOk (s : Sig) : Bool :=
  match wrapPyfuncSig s with
  | none => false
  | some r => parseParamsOk r.2

/-- A class the claim's words call "raw bytes/bytearray or a pydantic
BaseModel subclass". -/
def rawOrModel (c : PyClass) : Bool :=
  isSubclassOf c PyClass.bytesCls || isSubclassOf c PyClass.bytearrayCls ||
    isSubclassOf c PyClass.baseModelCls

/-- The acceptance condition as the claim states it (this definition
follows the claim's words, for comparison with `setCommandOk`, which is
translated from the source): every parameter name is in the fixed
vocabulary with annotation rules per name — `app_handle` and
`webview_window` a subclass of their expected classes, `body` and the
return annotation raw bytes/bytearray or a BaseModel subclass. -/
def claimAcceptC8 (s : Sig) : Bool :=
  s.params.all (fun p =>
    if p.name = "body" then rawOrModel p.anno else paramOk p) &&
    rawOrModel s.ret

/-- The corrected acceptance condition: additionally, the `body` parameter
must be declared positional-or-keyword or keyword-only, and its annotation
must be `bytearray` (not plain `bytes`) or a BaseModel subclass. -/
def amendedParamOk (p : Param) : Bool :=
  if p.name = "body" then
    (p.kind == ParamKind.keywordOnly ||
      p.kind == ParamKind.positionalOrKeyword) &&
    (isSubclassOf p.anno PyClass.bytearrayCls ||
      isSubclassOf p.anno PyClass.baseModelCls)
  else paramOk p

/-- Acceptance condition of the amended claim C8. -/
def amendedAcceptC8 (s : Sig) : Bool :=
  s.params.all amendedParamOk && rawOrModel s.ret

/-! ## Registration (`Commands.set_command`, `Commands._register`)

A handler function object is identified by its declaration (its `__name__`
and signature); `wrap_pyfunc` either returns the original function object
unchanged (no serializer and no deserializer) or a new wrapper object.
The registry `self.data` maps command names to
`_PyInvokHandleData(parameters, handler)`. -/

/-- A user handler function object as passed to registration. -/
structure HandlerDecl where
  pyName : String
  sig : Sig
  deriving DecidableEq, Repr

/-- The function object stored in the dispatch table: the original handler
or the wrapper `wrap_pyfunc` built around it. -/
inductive StoredFn where
  | orig (d : HandlerDecl)
  | wrapped (d : HandlerDecl)
  deriving DecidableEq, Repr

/-- `_PyInvokHandleData`: the parsed parameters and the stored handler. -/
structure CmdEntry where
  params : List Param
  fn : StoredFn
  deriving DecidableEq, Repr

/-- The `_PyInvokHandleData` that `set_command` builds for a handler:
`wrap_pyfunc` (possibly raising `ValueError`, `none` here), then
`parse_parameters` on the wrapped signature (again possibly raising). -/
def entryOf (d : HandlerDecl) : Option CmdEntry :=
  match wrapPyfuncSig d.sig with
  | none => none
  | some r =>
    if parseParamsOk r.2 then
      some ⟨r.2.params,
        if r.1 then StoredFn.wrapped d else StoredFn.orig d⟩
    else none

/-- `Commands.set_command` (ipc.py lines 341-355): validate and wrap, then
assign `self.data[command] = _PyInvokHandleData(parameters, new_handler)`,
overwriting any existing entry. -/
def setCommandModel (reg : List (String × CmdEntry)) (c : String)
    (d : HandlerDecl) : Option (List (String × CmdEntry)) :=
  (entryOf d).map (setCmd reg c)

/-- Result of `Commands._register`: the returned decorator value, or the
raised `ValueError` (duplicate name, or a validation failure from
`set_command`). -/
inductive RegOutcome where
  | returned (f : StoredFn)
  | errDuplicate
  | errValue
  deriving DecidableEq, Repr

/-- `command = command or handler.__name__` (ipc.py line 364): `None` and
the empty string are both falsy. -/
def resolveCmdName (cmdArg : Option String) (d : HandlerDecl) : String :=
  match cmdArg with
  | none => d.pyName
  | some c => if c = "" then d.pyName else c

/-- `Commands._register` (ipc.py lines 357-371): resolve the command name,
raise `ValueError` if it is already a key of `self.data` (before touching
the registry), otherwise run `set_command` and return the original
`handler` argument. -/
def registerModel (reg : List (String × CmdEntry)) (cmdArg : Option String)
    (d : HandlerDecl) : List (String × CmdEntry) × RegOutcome :=
  let c := resolveCmdName cmdArg d
  if (lookupCmd reg c).isSome then (reg, RegOutcome.errDuplicate)
  else
    match setCommandModel reg c d with
    | none => (reg, RegOutcome.errValue)
    | some reg2 => (reg2, RegOutcome.returned (StoredFn.orig d))

/-- Whether `wrap_pyfunc` builds a new wrapper function for this handler. -/
def needsWrap (s : Sig) : Bool :=
  match wrapPyfuncSig s with
  | none => false
  | some r => r.1

/-- A minimal raw-bytes handler declaration, used in witnesses. -/
def dRaw (n : String) : HandlerDecl := ⟨n, ⟨[], PyClass.bytesCls⟩⟩

/-- The dispatch-table entry `set_command` builds for `dRaw n` (no
serializer, no deserializer: the original function is stored). -/
def rawEntry (n : String) : CmdEntry := ⟨[], StoredFn.orig (dRaw n)⟩

/-- The demo `greet` handler's declaration: its `__name__` and the
signature introspected at registration time. -/
def dGreet : HandlerDecl :=
  ⟨"greet",
    ⟨[⟨"body", ParamKind.positionalOrKeyword, PyClass.modelCls "Person"⟩,
      ⟨"app_handle", ParamKind.positionalOrKeyword, PyClass.appHandleCls⟩],
      PyClass.modelCls "Greeting"⟩⟩

/-- The dispatch-table entry registration builds for `dGreet`: the wrapped
signature's parameters and the wrapper function object. -/
def greetEntry : CmdEntry :=
  ⟨[⟨"body", ParamKind.positionalOrKeyword, PyClass.bytearrayCls⟩,
    ⟨"app_handle", ParamKind.positionalOrKeyword, PyClass.appHandleCls⟩],
    StoredFn.wrapped dGreet⟩

/-! ## Theorems -/

theorem closeLoop_eq (l : List (Option RunnerM)) :
    closeLoop l = (l.filterMap (fun w => w.map RunnerM.rid),
      l.filterMap (fun w => w.bind RunnerM.closeExc)) := by
  induction l with
  | nil => rfl
  | cons w rest ih =>
    cases w with
    | none => simp [closeLoop, ih]
    | some runner =>
      cases h : runner.closeExc <;>
        simp [closeLoop, ih, h, Option.bind]

/-- C1: Every completion path of the wrapper coroutine spawned by
`_PyRunner.__call__` — task-group branch or portal branch, normal return,
ordinary exception, or backend cancellation exception, with or without the
cancel scope absorbing the re-raise — performs exactly one settlement call
on the pending operation: `set_result v` when the awaitable returned `v`
(in particular, a trivial instantly-resolving coroutine gets `set_result`
exactly once on both scheduling branches), `set_exception e` when it raised
`e`. -/
theorem runner_settles_exactly_once (sameThread : Bool) (o : AwaitOutcome)
    (absorbs : Bool) :
    (runnerWrapped sameThread o absorbs).1 = [settleOf o] := by
  cases o with
  | ok v =>
    cases sameThread <;>
      simp [runnerWrapped, wrappedSameThread, wrappedCrossThread, wrappedTry,
        settleOf]
  | err e =>
    cases sameThread <;>
      simp [runnerWrapped, wrappedSameThread, wrappedCrossThread, wrappedTry,
        settleOf]

/-- C2: The wrapper coroutine re-raises an exception (into the surrounding
scope/task-group machinery) exactly when the awaited exception is the
backend cancellation signal, and what it re-raises is that very exception;
every other exception is delivered via `set_exception` and swallowed (the
wrapper exits normally), so a failing command never propagates an exception
into the task group. -/
theorem runner_reraises_iff_cancelled (sameThread : Bool) (o : AwaitOutcome)
    (absorbs : Bool) :
    exitExc (runnerWrapped sameThread o absorbs).2 = cancelExcOf o := by
  cases o with
  | ok v =>
    cases sameThread <;>
      simp [runnerWrapped, wrappedSameThread, wrappedCrossThread, wrappedTry,
        scopeWrap, exitExc, cancelExcOf]
  | err e =>
    cases hc : e.isCancelled <;> cases sameThread <;> cases absorbs <;>
      simp [runnerWrapped, wrappedSameThread, wrappedCrossThread, wrappedTry,
        scopeWrap, exitExc, cancelExcOf, hc]

/-- C3: Unwinding the runner lifecycle stack calls `close()` on live
referents in LIFO (reverse-push) order, silently skips garbage-collected
referents, keeps closing after a `close()` raises, collects every raised
exception, and raises an aggregate group chained to the triggering
exception exactly when at least one `close()` raised.  Concretely, pushing
R1, R2, R3 where R2 is dead and R1's `close()` raises exception 7 closes
R3 then R1 and raises the group `[7]` chained from the trigger. -/
theorem runner_stack_exit_lifo (stack : List (Option RunnerM))
    (trigger : Option Nat) :
    runnerStackExit stack trigger =
      (liveIdsLIFO stack,
        if (closeExcsLIFO stack).isEmpty then none
        else some (closeExcsLIFO stack, trigger)) ∧
    runnerStackExit
        (stackPush (stackPush (stackPush [] (some ⟨1, some 7⟩)) none)
          (some ⟨3, none⟩)) (some 9) =
      ([3, 1], some ([7], some 9)) := by
  constructor
  · unfold runnerStackExit liveIdsLIFO closeExcsLIFO
    rw [closeLoop_eq]
  · rfl

/-- C4: Dispatching an `Invoke` whose command is not a key of the registry
calls `invoke.reject` once with a message containing the command name, and
performs no other effect: no handler call, no resolve, no resolver reject,
no log — and the dispatch wrapper completes without raising (the modelled
dispatch is total). -/
theorem dispatch_unknown_command_rejects
    (data : List (String × (List Char → HandlerOutcome))) (inv : InvokeM)
    (habs : lookupCmd data inv.command = none) :
    asyncInvokeHandler data inv =
      [Effect.invokeReject (noHandlerMsg inv.command)] ∧
    noHandlerMsg inv.command =
      "no python handler `" ++ inv.command ++ "` found" := by
  unfold asyncInvokeHandler
  rw [habs]
  exact ⟨rfl, rfl⟩

theorem dispatch_unknown_command_rejects_witness :
    asyncInvokeHandler [] ⟨"greet", true, []⟩ =
      [Effect.invokeReject (noHandlerMsg "greet")] ∧
    noHandlerMsg "greet" = "no python handler `" ++ "greet" ++ "` found" :=
  dispatch_unknown_command_rejects [] ⟨"greet", true, []⟩ rfl

/-- C5: When a registered handler raises `InvokeException` with message `M`,
dispatch calls `resolver.reject` with exactly `M` and nothing else after the
handler call: no resolve and no log entry. -/
theorem dispatch_invoke_exception_rejects_exact
    (data : List (String × (List Char → HandlerOutcome))) (inv : InvokeM)
    (handler : List Char → HandlerOutcome) (M : String)
    (hfound : lookupCmd data inv.command = some handler)
    (hbind : inv.bindOk = true)
    (hraise : handler inv.body = HandlerOutcome.invokeExc M) :
    asyncInvokeHandler data inv =
      [Effect.handlerCalled, Effect.resolverReject M] := by
  simp [asyncInvokeHandler, hfound, hbind, hraise]

theorem dispatch_invoke_exception_rejects_exact_witness :
    asyncInvokeHandler [("fail", fun _ => HandlerOutcome.invokeExc "bad input")]
        ⟨"fail", true, []⟩ =
      [Effect.handlerCalled, Effect.resolverReject "bad input"] :=
  dispatch_invoke_exception_rejects_exact
    [("fail", fun _ => HandlerOutcome.invokeExc "bad input")]
    ⟨"fail", true, []⟩ (fun _ => HandlerOutcome.invokeExc "bad input")
    "bad input" rfl rfl rfl

/-- C6: When a registered handler raises any exception other than
`InvokeException`, dispatch emits exactly one error-log entry and calls
`resolver.reject` with `repr` of the exception — a non-empty message (the
modelled `repr` always contains the parentheses) that is not a traceback —
and the exception does not propagate (the effect trace is the whole
observable behaviour; dispatch returns normally). -/
theorem dispatch_unexpected_exception_logs_once
    (data : List (String × (List Char → HandlerOutcome))) (inv : InvokeM)
    (handler : List Char → HandlerOutcome) (e : PyExc)
    (hfound : lookupCmd data inv.command = some handler)
    (hbind : inv.bindOk = true)
    (hraise : handler inv.body = HandlerOutcome.otherExc e) :
    asyncInvokeHandler data inv =
      [Effect.handlerCalled, Effect.logErrorEntry,
        Effect.resolverReject (reprExc e)] ∧
    (asyncInvokeHandler data inv).count Effect.logErrorEntry = 1 ∧
    (reprExc e).length ≥ 2 := by
  have htr : asyncInvokeHandler data inv =
      [Effect.handlerCalled, Effect.logErrorEntry,
        Effect.resolverReject (reprExc e)] := by
    simp [asyncInvokeHandler, hfound, hbind, hraise]
  refine ⟨htr, ?_, ?_⟩
  · rw [htr]
    rfl
  · have h1 : "(".length = 1 := rfl
    have h2 : ")".length = 1 := rfl
    have h3 : (reprExc e).length =
        e.clsName.length + "(".length + e.args.length + ")".length := by
      unfold reprExc
      rw [String.length_append, String.length_append, String.length_append]
    omega

theorem dispatch_unexpected_exception_logs_once_witness :
    asyncInvokeHandler
        [("boom", fun _ => HandlerOutcome.otherExc ⟨"ValueError", "oops"⟩)]
        ⟨"boom", true, []⟩ =
      [Effect.handlerCalled, Effect.logErrorEntry,
        Effect.resolverReject (reprExc ⟨"ValueError", "oops"⟩)] ∧
    (asyncInvokeHandler
        [("boom", fun _ => HandlerOutcome.otherExc ⟨"ValueError", "oops"⟩)]
        ⟨"boom", true, []⟩).count Effect.logErrorEntry = 1 ∧
    (reprExc ⟨"ValueError", "oops"⟩).length ≥ 2 :=
  dispatch_unexpected_exception_logs_once
    [("boom", fun _ => HandlerOutcome.otherExc ⟨"ValueError", "oops"⟩)]
    ⟨"boom", true, []⟩
    (fun _ => HandlerOutcome.otherExc ⟨"ValueError", "oops"⟩)
    ⟨"ValueError", "oops"⟩ rfl rfl rfl

theorem dropLead_append (p s : List Char) : dropLead p (p ++ s) = some s := by
  induction p with
  | nil => rfl
  | cons a ps ih => simp [dropLead, ih]

theorem dropTail_append (t m : List Char) : dropTail t (m ++ t) = some m := by
  unfold dropTail
  rw [List.reverse_append, dropLead_append]
  simp

theorem extractMid_append (pre suf m : List Char) :
    extractMid pre suf (pre ++ m ++ suf) = some m := by
  unfold extractMid
  rw [List.append_assoc, dropLead_append]
  dsimp only
  rw [dropTail_append]

theorem jsonChars_append (a b : List Char) :
    jsonChars (a ++ b) = (jsonChars a && jsonChars b) := by
  simp [jsonChars, List.all_append]

theorem personFromJson_name_ok (s : List Char) (p : Person)
    (h : personFromJson s = some p) : jsonChars p.name = true := by
  unfold personFromJson at h
  cases hm : extractMid personPre jsonSuf s with
  | none => rw [hm] at h; exact absurd h (by simp)
  | some mid =>
    rw [hm] at h
    dsimp only at h
    by_cases hc : jsonChars mid = true
    · rw [if_pos hc] at h
      cases h
      exact hc
    · rw [if_neg hc] at h
      exact absurd h (by simp)

theorem greeting_roundtrip (g : Greeting) (h : jsonChars g.message = true) :
    greetingFromJson (greetingToJson g) = some g := by
  unfold greetingFromJson greetingToJson
  rw [extractMid_append]
  dsimp only
  rw [if_pos h]

/-- C7: Dispatching the registered, serialization-wrapped demo `greet`
with a body that pydantic decodes to a `Person` resolves with a byte
payload that decodes as `Greeting` to exactly the value the handler logic
computes on the decoded input; in particular the body
`\x7b"name":"World"\x7d` resolves to bytes decoding to
`\x7b"message":"Hello, World!"\x7d` (witness). -/
theorem greet_dispatch_roundtrip (body : List Char) (p : Person)
    (hdec : personFromJson body = some p) :
    asyncInvokeHandler greetData ⟨"greet", true, body⟩ =
      [Effect.handlerCalled,
        Effect.resolverResolve (greetingToJson (greetLogic p))] ∧
    greetingFromJson (greetingToJson (greetLogic p)) =
      some (greetLogic p) := by
  constructor
  · simp [asyncInvokeHandler, greetData, lookupCmd, wrapModelHandler, hdec]
  · apply greeting_roundtrip
    have hname := personFromJson_name_ok body p hdec
    show jsonChars ("Hello, ".toList ++ p.name ++ "!".toList) = true
    rw [jsonChars_append, jsonChars_append, hname]
    decide

theorem greet_dispatch_roundtrip_witness :
    personFromJson ("\x7b\"name\":\"World\"\x7d".toList) =
      some ⟨"World".toList⟩ ∧
    asyncInvokeHandler greetData
        ⟨"greet", true, "\x7b\"name\":\"World\"\x7d".toList⟩ =
      [Effect.handlerCalled,
        Effect.resolverResolve
          (greetingToJson (greetLogic ⟨"World".toList⟩))] ∧
    greetingFromJson ("\x7b\"message\":\"Hello, World!\"\x7d".toList) =
      some (greetLogic ⟨"World".toList⟩) := by
  have hdec : personFromJson ("\x7b\"name\":\"World\"\x7d".toList) =
      some ⟨"World".toList⟩ := by decide
  have hmain := greet_dispatch_roundtrip ("\x7b\"name\":\"World\"\x7d".toList)
    ⟨"World".toList⟩ hdec
  refine ⟨hdec, hmain.1, ?_⟩
  have henc : greetingToJson (greetLogic ⟨"World".toList⟩) =
      "\x7b\"message\":\"Hello, World!\"\x7d".toList := by decide
  rw [← henc]
  exact hmain.2

theorem allCongrBool {α : Type} (l : List α) (p q : α → Bool)
    (h : ∀ x ∈ l, p x = q x) : l.all p = l.all q := by
  induction l with
  | nil => rfl
  | cons a t ih => simp_all [List.all_cons]

theorem amendedParamOk_of_not_body (p : Param) (h : ¬(p.name = "body")) :
    amendedParamOk p = paramOk p := by
  simp [amendedParamOk, h]

theorem parseParamsOk_bytes (ps : List Param) :
    parseParamsOk ⟨ps, PyClass.bytesCls⟩ = ps.all paramOk := by
  simp [parseParamsOk, isSubclassOf]

theorem retStep_isSome (r : PyClass) : (retStep r).isSome = rawOrModel r := by
  cases r <;> simp [retStep, rawOrModel, isSubclassOf]

theorem retStep_some_false (r : PyClass) (h : retStep r = some false) :
    (isSubclassOf r PyClass.bytesCls || isSubclassOf r PyClass.bytearrayCls)
      = true := by
  cases r <;> simp_all [retStep, isSubclassOf]

theorem bodyStep_isSome (bp : Param) (h : bp.name = "body") :
    (bodyStep (some bp)).isSome = amendedParamOk bp := by
  obtain ⟨n, k, a⟩ := bp
  simp only at h
  subst h
  cases k <;> cases a <;>
    simp [bodyStep, amendedParamOk, isSubclassOf, paramOk, expectedAnno]

theorem bodyStep_some_false (bp : Param)
    (h : bodyStep (some bp) = some false) :
    isSubclassOf bp.anno PyClass.bytearrayCls = true := by
  obtain ⟨n, k, a⟩ := bp
  cases k <;> cases a <;> simp_all [bodyStep, isSubclassOf]

theorem paramOk_replaced_body (p : Param) (h : p.name = "body") :
    paramOk { p with anno := PyClass.bytearrayCls } = true := by
  simp [paramOk, expectedAnno, isSubclassOf, h]

/-- Counterexample to claim C8 as stated: the handler
`async def h(body, /) -> bytes` with `body` declared positional-only and
annotated `bytearray` passes every check the claim lists (its only
parameter name is in the vocabulary, its annotation is the expected
`bytearray`, and body and return annotations are raw byte types), yet
registration raises `ValueError`, because `wrap_pyfunc` also requires the
`body` parameter's kind to be keyword-only or positional-or-keyword. -/
theorem c8_claim_counterexample :
    claimAcceptC8
        ⟨[⟨"body", ParamKind.positionalOnly, PyClass.bytearrayCls⟩],
          PyClass.bytesCls⟩ = true ∧
    setCommandOk
        ⟨[⟨"body", ParamKind.positionalOnly, PyClass.bytearrayCls⟩],
          PyClass.bytesCls⟩ = false := by
  decide

/-- C8 (amended): high-level registration (validating with
`check_signature=True`) accepts a handler signature iff every parameter
name is in the vocabulary `\x7bbody, app_handle, webview_window\x7d`, the
`app_handle` and `webview_window` annotations are subclasses of their
expected classes, the `body` parameter (when present) is declared
positional-or-keyword or keyword-only and annotated with a `bytearray`
subclass or a `BaseModel` subclass (plain `bytes` is rejected for the
body), and the return annotation is a subclass of `bytes`, `bytearray` or
`BaseModel`; otherwise it raises `ValueError`. -/
theorem register_validation_characterization (s : Sig)
    (hnd : (s.params.map Param.name).Nodup) :
    setCommandOk s = amendedAcceptC8 s := by
  unfold setCommandOk wrapPyfuncSig
  cases hfb : findBody s.params with
  | none =>
    have hnb : ∀ p ∈ s.params, ¬(p.name = "body") := by
      intro p hp
      simpa using List.find?_eq_none.mp hfb p hp
    have hall : s.params.all amendedParamOk = s.params.all paramOk :=
      allCongrBool _ _ _ fun p hp => amendedParamOk_of_not_body p (hnb p hp)
    cases hrs : retStep s.ret with
    | none =>
      have hro : rawOrModel s.ret = false := by
        rw [← retStep_isSome, hrs]
        rfl
      simp [bodyStep, amendedAcceptC8, hro]
    | some hasDeser =>
      have hro : rawOrModel s.ret = true := by
        rw [← retStep_isSome, hrs]
        rfl
      cases hasDeser with
      | false =>
        simp [bodyStep, amendedAcceptC8, hro, hall, parseParamsOk,
          retStep_some_false s.ret hrs]
      | true =>
        simp [bodyStep, amendedAcceptC8, hro, hall, parseParamsOk_bytes]
  | some bp =>
    have hmem : bp ∈ s.params := List.mem_of_find?_eq_some hfb
    have hbname : bp.name = "body" := by
      simpa using List.find?_some hfb
    have huniq : ∀ p ∈ s.params, p.name = "body" → p = bp := fun p hp hpn =>
      List.inj_on_of_nodup_map hnd hp hmem (by rw [hpn, hbname])
    cases hbs : bodyStep (some bp) with
    | none =>
      have hbf : amendedParamOk bp = false := by
        rw [← bodyStep_isSome bp hbname, hbs]
        rfl
      have hallf : s.params.all amendedParamOk = false := by
        cases hb : s.params.all amendedParamOk with
        | false => rfl
        | true =>
          have := List.all_eq_true.mp hb bp hmem
          rw [hbf] at this
          exact absurd this (by simp)
      simp [amendedAcceptC8, hallf]
    | some hasSer =>
      have hbt : amendedParamOk bp = true := by
        rw [← bodyStep_isSome bp hbname, hbs]
        rfl
      have hallser : hasSer = true →
          (replaceBodyAnno s.params).all paramOk =
            s.params.all amendedParamOk := by
        intro _
        unfold replaceBodyAnno
        rw [List.all_map]
        refine allCongrBool _ _ _ fun p hp => ?_
        simp only [Function.comp_apply]
        by_cases hpn : p.name = "body"
        · have hpbp : p = bp := huniq p hp hpn
          subst hpbp
          rw [if_pos hpn, paramOk_replaced_body p hpn, hbt]
        · rw [if_neg hpn, amendedParamOk_of_not_body p hpn]
      have hallnoser : hasSer = false →
          s.params.all paramOk = s.params.all amendedParamOk := by
        intro hs
        refine allCongrBool _ _ _ fun p hp => ?_
        by_cases hpn : p.name = "body"
        · have hpbp : p = bp := huniq p hp hpn
          subst hpbp
          have hbs2 : bodyStep (some p) = some false := by
            rw [← hs]
            exact hbs
          rw [hbt]
          simp [paramOk, hpn, expectedAnno, bodyStep_some_false p hbs2]
        · rw [amendedParamOk_of_not_body p hpn]
      cases hrs : retStep s.ret with
      | none =>
        have hro : rawOrModel s.ret = false := by
          rw [← retStep_isSome, hrs]
          rfl
        simp [amendedAcceptC8, hro]
      | some hasDeser =>
        have hro : rawOrModel s.ret = true := by
          rw [← retStep_isSome, hrs]
          rfl
        cases hasSer with
        | true =>
          simp [amendedAcceptC8, hro, parseParamsOk_bytes,
            hallser rfl]
        | false =>
          cases hasDeser with
          | true =>
            simp [amendedAcceptC8, hro, parseParamsOk_bytes,
              hallnoser rfl]
          | false =>
            simp [amendedAcceptC8, hro, parseParamsOk,
              retStep_some_false s.ret hrs, hallnoser rfl]

theorem register_validation_characterization_witness :
    (([⟨"body", ParamKind.positionalOrKeyword, PyClass.modelCls "Person"⟩,
        ⟨"app_handle", ParamKind.positionalOrKeyword, PyClass.appHandleCls⟩]
          : List Param).map Param.name).Nodup ∧
    setCommandOk
        ⟨[⟨"body", ParamKind.positionalOrKeyword, PyClass.modelCls "Person"⟩,
          ⟨"app_handle", ParamKind.positionalOrKeyword,
            PyClass.appHandleCls⟩], PyClass.modelCls "Greeting"⟩ =
      amendedAcceptC8
        ⟨[⟨"body", ParamKind.positionalOrKeyword, PyClass.modelCls "Person"⟩,
          ⟨"app_handle", ParamKind.positionalOrKeyword,
            PyClass.appHandleCls⟩], PyClass.modelCls "Greeting"⟩ :=
  ⟨by decide,
    register_validation_characterization
      ⟨[⟨"body", ParamKind.positionalOrKeyword, PyClass.modelCls "Person"⟩,
        ⟨"app_handle", ParamKind.positionalOrKeyword,
          PyClass.appHandleCls⟩], PyClass.modelCls "Greeting"⟩ (by decide)⟩

theorem lookupCmd_setCmd {α : Type} (reg : List (String × α)) (c : String)
    (v : α) : lookupCmd (setCmd reg c v) c = some v := by
  induction reg with
  | nil => simp [setCmd, lookupCmd]
  | cons kv rest ih =>
    obtain ⟨k, w⟩ := kv
    by_cases hk : k = c
    · simp [setCmd, hk, lookupCmd]
    · simp [setCmd, hk, lookupCmd, ih]

/-- C9: Registering a command name already present in the registry through
the high-level `_register` raises the duplicate-name `ValueError` and
leaves the registry unchanged (so no dispatch through a new entry can
occur), while the low-level `set_command` with the same name succeeds and
overwrites: afterwards the name maps to the new entry. -/
theorem duplicate_register_rejected (reg : List (String × CmdEntry))
    (c : String) (d d2 : HandlerDecl) (e e2 : CmdEntry)
    (hdup : lookupCmd reg c = some e) (hne : ¬(c = ""))
    (he2 : entryOf d2 = some e2) :
    registerModel reg (some c) d = (reg, RegOutcome.errDuplicate) ∧
    setCommandModel reg c d2 = some (setCmd reg c e2) ∧
    lookupCmd (setCmd reg c e2) c = some e2 := by
  refine ⟨?_, ?_, lookupCmd_setCmd reg c e2⟩
  · unfold registerModel resolveCmdName
    simp [hne, hdup]
  · unfold setCommandModel
    rw [he2]
    rfl

theorem duplicate_register_rejected_witness :
    lookupCmd [("greet", rawEntry "greet")] "greet" = some (rawEntry "greet") ∧
    registerModel [("greet", rawEntry "greet")] (some "greet") (dRaw "other") =
      ([("greet", rawEntry "greet")], RegOutcome.errDuplicate) ∧
    lookupCmd (setCmd [("greet", rawEntry "greet")] "greet" (rawEntry "other"))
        "greet" = some (rawEntry "other") := by
  have h := duplicate_register_rejected [("greet", rawEntry "greet")] "greet"
    (dRaw "other") (dRaw "other") (rawEntry "greet") (rawEntry "other")
    (by decide) (by decide) (by decide)
  exact ⟨by decide, h.1, h.2.2⟩

/-- C10: When high-level registration succeeds, the decorator returns the
very same function object that was passed in — never the wrapper — while
the registry maps the resolved command name to the `set_command`-built
entry, whose stored handler is the `wrap_pyfunc` wrapper (a different
function object from the returned one) whenever a serializer or
deserializer was injected. -/
theorem register_returns_original_handler (reg : List (String × CmdEntry))
    (cmdArg : Option String) (d : HandlerDecl)
    (reg2 : List (String × CmdEntry)) (f : StoredFn)
    (h : registerModel reg cmdArg d = (reg2, RegOutcome.returned f)) :
    f = StoredFn.orig d ∧
    ∃ e, entryOf d = some e ∧
      lookupCmd reg2 (resolveCmdName cmdArg d) = some e ∧
      (needsWrap d.sig = true →
        e.fn = StoredFn.wrapped d ∧ e.fn ≠ f) := by
  unfold registerModel at h
  by_cases hdup : (lookupCmd reg (resolveCmdName cmdArg d)).isSome
  · rw [if_pos hdup] at h
    simp at h
  · rw [if_neg hdup] at h
    cases hec : setCommandModel reg (resolveCmdName cmdArg d) d with
    | none =>
      rw [hec] at h
      simp at h
    | some reg3 =>
      rw [hec] at h
      injection h with hA hB
      injection hB with hf
      subst hA
      refine ⟨hf.symm, ?_⟩
      unfold setCommandModel at hec
      cases heo : entryOf d with
      | none =>
        rw [heo] at hec
        simp at hec
      | some e =>
        rw [heo] at hec
        simp at hec
        refine ⟨e, rfl, ?_, ?_⟩
        · rw [← hec]
          exact lookupCmd_setCmd reg (resolveCmdName cmdArg d) e
        · intro hw
          unfold needsWrap at hw
          unfold entryOf at heo
          cases hws : wrapPyfuncSig d.sig with
          | none =>
            rw [hws] at heo
            simp at heo
          | some r =>
            rw [hws] at heo
            rw [hws] at hw
            simp only at hw
            dsimp only at heo
            by_cases hpp : parseParamsOk r.2 = true
            · rw [if_pos hpp] at heo
              injection heo with he
              have hfn : e.fn = StoredFn.wrapped d := by
                rw [← he]
                simp [hw]
              refine ⟨hfn, ?_⟩
              rw [hfn, ← hf]
              simp
            · rw [if_neg hpp] at heo
              simp at heo

theorem register_returns_original_handler_witness :
    registerModel [] none dGreet =
      ([("greet", greetEntry)], RegOutcome.returned (StoredFn.orig dGreet)) ∧
    (StoredFn.orig dGreet = StoredFn.orig dGreet ∧
      ∃ e, entryOf dGreet = some e ∧
        lookupCmd [("greet", greetEntry)] (resolveCmdName none dGreet) =
          some e ∧
        (needsWrap dGreet.sig = true →
          e.fn = StoredFn.wrapped dGreet ∧ e.fn ≠ StoredFn.orig dGreet)) := by
  constructor
  · decide
  · exact register_returns_original_handler [] none dGreet
      [("greet", greetEntry)] (StoredFn.orig dGreet) (by decide)

end PyTauri
